import Mathlib

/-!
Verification development for the photo-restoration session controller in
src/App.tsx. The component keeps five pieces of React state
(originalImage, originalImageUrl, restoredImageUrl, isLoading, error) and
mutates them through three handlers: handleFileChange, handleRestore and
resetState. We embed the state as a structure, the handlers as pure
functions, and the browser object-URL allocator (URL.createObjectURL /
URL.revokeObjectURL) as an explicit environment of live handles, so that
reference-lifecycle properties can be stated.
-/

set_option autoImplicit false

namespace RestaurPhoto

/-- A user-selected file: its name and its declared MIME type
(the two attributes src/App.tsx reads: file.type for validation and for
the data URL, and the name only implicitly through the picker). -/
structure File where
  name : String
  type : String
deriving Repr, DecidableEq

/-- A display handle produced by URL.createObjectURL: an opaque identifier
together with the file it was derived from. -/
structure ObjectURL where
  id : Nat
  file : File
deriving Repr, DecidableEq

/-- The allocator state of the browser object-URL facility: a counter
supplying fresh identifiers and the list of live (created and not yet
revoked) handles. -/
structure Env where
  nextUrl : Nat
  live : List ObjectURL
deriving Repr, DecidableEq

/-- URL.createObjectURL(file): allocates a fresh handle for the file and
adds it to the live set. -/
def createObjectURL (e : Env) (f : File) : ObjectURL × Env :=
  let u : ObjectURL := { id := e.nextUrl, file := f }
  (u, { nextUrl := e.nextUrl + 1, live := u :: e.live })

/-- URL.revokeObjectURL(u): removes the handle from the live set. -/
def revokeObjectURL (e : Env) (u : ObjectURL) : Env :=
  { e with live := e.live.erase u }

/-- The React state of the App component (src/App.tsx lines 34-38):
originalImage, originalImageUrl, restoredImageUrl, isLoading, error.
The restored image is a data URL, kept as a plain string. -/
structure AppState where
  originalImage : Option File
  originalImageUrl : Option ObjectURL
  restoredImageUrl : Option String
  isLoading : Bool
  error : Option String
deriving Repr, DecidableEq

/-- The initial state of the component: all useState initialisers in
src/App.tsx lines 34-38. -/
def initState : AppState :=
  { originalImage := none
    originalImageUrl := none
    restoredImageUrl := none
    isLoading := false
    error := none }

/-- The initial object-URL environment: nothing allocated. -/
def initEnv : Env := { nextUrl := 0, live := [] }

/-- JS String.prototype.startsWith, modelled on the underlying character
list so that concrete instances evaluate inside the kernel. -/
def strStartsWith (s pre : String) : Bool :=
  pre.data.isPrefixOf s.data

/-- The validation message of src/App.tsx line 45. -/
def validationErrorMsg : String := "Please upload a valid image file (PNG, JPG, etc.)."

/-- The restoration-failure message of src/App.tsx line 66. -/
def restoreFailMsg : String := "Failed to restore photo. Please try again later."

/-- resetState (src/App.tsx lines 72-84): clears every state field,
revoking the current preview handle when one is held. (The handler also
blanks the value of the DOM file input; that lives outside the session state
and is not modelled.) -/
def resetState (se : AppState × Env) : AppState × Env :=
  let e' : Env :=
    match se.1.originalImageUrl with
    | some u => revokeObjectURL se.2 u
    | none => se.2
  (initState, e')

/-- handleFileChange (src/App.tsx lines 41-52) applied to the selected
file (none when the picker produced no file). An invalid MIME type sets
the error message and returns early; a valid file runs resetState and then
stores the file and a freshly created preview handle. -/
def handleFileChange (se : AppState × Env) (file : Option File) : AppState × Env :=
  match file with
  | none => se
  | some f =>
    if !(strStartsWith f.type "image/") then
      ({ se.1 with error := some validationErrorMsg }, se.2)
    else
      let se1 := resetState se
      let (u, e2) := createObjectURL se1.2 f
      ({ se1.1 with originalImage := some f, originalImageUrl := some u }, e2)

/-- The state set synchronously at the top of handleRestore
(src/App.tsx lines 57-59) while the network call is in flight:
isLoading true, error and restoredImageUrl cleared. -/
def restoreIntermediate (s : AppState) : AppState :=
  { s with isLoading := true, error := none, restoredImageUrl := none }

/-- handleRestore (src/App.tsx lines 54-70). The outcome of the single
restorePhoto network exchange is passed in as an Except value (ok carries
the base64 payload, error the thrown reason). Returns the final state
together with the number of network exchanges performed (0 when the guard
on line 55 returns early, 1 otherwise). -/
def handleRestore (s : AppState) (result : Except String String) : AppState × Nat :=
  match s.originalImage with
  | none => (s, 0)
  | some img =>
    let s1 := restoreIntermediate s
    match result with
    | .ok b64 =>
      ({ s1 with
          restoredImageUrl := some ("data:" ++ img.type ++ ";base64," ++ b64)
          isLoading := false }, 1)
    | .error _ =>
      ({ s1 with error := some restoreFailMsg, isLoading := false }, 1)

/-- The operations a user can trigger on the session. -/
inductive Op where
  | selectFile : Option File → Op
  | restore : Except String String → Op
  | reset : Op

/-- One user operation on state and environment. handleRestore performs no
object-URL operation (src/App.tsx lines 54-70 never call createObjectURL
or revokeObjectURL), so restore leaves the environment untouched. -/
def step (se : AppState × Env) : Op → AppState × Env
  | .selectFile f => handleFileChange se f
  | .restore r => ((handleRestore se.1 r).1, se.2)
  | .reset => resetState se

/-- The abstract status vocabulary of the specification. -/
inductive Status where
  | Idle
  | Ready
  | Restoring
  | Succeeded
  | Failed
deriving Repr, DecidableEq

/-- The abstract status the concrete state presents. src/App.tsx has no
status field; the status is what the rendering reads off the five fields:
a busy indicator while isLoading (Restoring); otherwise a present restored
image is displayed (the spec allows restoredImageReference only in
Succeeded); otherwise a present error message is the failure banner
(Failed); otherwise a selected file awaits restoration (Ready); otherwise
the session is empty (Idle). -/
def status (s : AppState) : Status :=
  if s.isLoading then .Restoring
  else if s.restoredImageUrl.isSome then .Succeeded
  else if s.error.isSome then .Failed
  else if s.originalImage.isSome then .Ready
  else .Idle

/-- The session invariant of the spec on the error field: errorMessage is
present exactly in the Failed status. -/
def ErrStatusInv (s : AppState) : Prop :=
  s.error.isSome ↔ status s = Status.Failed

instance (s : AppState) : Decidable (ErrStatusInv s) := by
  unfold ErrStatusInv; infer_instance

/-- Well-formedness of the environment relative to the state: the live
handles are exactly the preview handle the session holds (at most one),
and every held identifier is below the allocation counter. -/
def EnvInv (s : AppState) (e : Env) : Prop :=
  e.live = s.originalImageUrl.toList ∧
  Option.all (fun u => decide (u.id < e.nextUrl)) s.originalImageUrl = true

instance (s : AppState) (e : Env) : Decidable (EnvInv s e) := by
  unfold EnvInv; infer_instance

/-- The download anchor of src/App.tsx lines 153-162: rendered only when a
restored image exists, with href the restored data URL and the download
attribute the fixed string on line 156. -/
def downloadAttr (s : AppState) : Option (String × String) :=
  s.restoredImageUrl.map (fun u => (u, "restored-photo.png"))

/-- The extension of a file name: the part after the last dot, none when
the name has no dot. Used only to state the filename the spec claims. -/
def fileExtension (name : String) : Option String :=
  if '.' ∈ name.data then
    some (String.mk ((name.data.reverse.takeWhile (fun c => c != '.')).reverse))
  else none

/-- The download filename as the specification words it (for comparison
with downloadAttr, which is the source behaviour):
restored-photo.<original-extension-or-png>. -/
def specDownloadName (s : AppState) : Option String :=
  s.originalImage.map
    (fun f => "restored-photo." ++ (fileExtension f.name).getD "png")

/-- The MIME type a data URL declares: the text between the data: scheme
and the first semicolon. -/
def dataUrlMime (u : String) : Option String :=
  if strStartsWith u "data:" then
    some (String.mk ((u.data.drop 5).takeWhile (fun c => c != ';')))
  else none

/-! Concrete sample data used by counterexamples and witnesses. -/

/-- A sample valid image file. -/
def jpegFile : File := { name := "photo.jpg", type := "image/jpeg" }

/-- A second sample valid image file. -/
def pngFile : File := { name := "scan.png", type := "image/png" }

/-- A sample non-image file. -/
def textFile : File := { name := "notes.txt", type := "text/plain" }

/-- The session after selecting jpegFile from the initial state. -/
def readyPair : AppState × Env := handleFileChange (initState, initEnv) (some jpegFile)

/-- The session state after a successful restoration from readyPair. -/
def succeededState : AppState := (handleRestore readyPair.1 (Except.ok "Zm9vYmFy")).1

/-! Helper lemmas. -/

/-- resetState never touches the allocation counter. -/
theorem resetState_nextUrl (s : AppState) (e : Env) :
    (resetState (s, e)).2.nextUrl = e.nextUrl := by
  cases hu : s.originalImageUrl <;> simp [resetState, revokeObjectURL, hu]

/-- In a well-formed session, resetState leaves no live handle. -/
theorem resetState_live_nil (s : AppState) (e : Env) (h : EnvInv s e) :
    (resetState (s, e)).2.live = [] := by
  obtain ⟨h1, _⟩ := h
  cases hu : s.originalImageUrl with
  | none =>
    rw [hu] at h1
    simp only [Option.toList] at h1
    simp [resetState, hu, h1]
  | some u =>
    rw [hu] at h1
    simp only [Option.toList] at h1
    simp [resetState, revokeObjectURL, hu, h1]

/-- Closed form of handleFileChange on a valid image file. -/
theorem handleFileChange_valid (s : AppState) (e : Env) (f : File)
    (hf : strStartsWith f.type "image/" = true) :
    handleFileChange (s, e) (some f) =
      ({ initState with
          originalImage := some f
          originalImageUrl := some { id := e.nextUrl, file := f } },
        { nextUrl := e.nextUrl + 1
          live := { id := e.nextUrl, file := f } :: (resetState (s, e)).2.live }) := by
  simp only [handleFileChange, hf, Bool.not_true, Bool.false_eq_true, if_false,
    createObjectURL, resetState_nextUrl]
  rfl

/-! Claim theorems. -/

/-- C6: when originalFile is absent, restore performs no network exchange
(the exchange count is 0) and leaves the whole session, the environment
and in particular the derived status unchanged. -/
theorem C6_restore_no_file (s : AppState) (e : Env) (r : Except String String)
    (h : s.originalImage = none) :
    handleRestore s r = (s, 0) ∧
    step (s, e) (.restore r) = (s, e) ∧
    status (step (s, e) (.restore r)).1 = status s := by
  have h1 : handleRestore s r = (s, 0) := by
    unfold handleRestore
    rw [h]
  refine ⟨h1, ?_, ?_⟩ <;> simp [step, h1]

/-- Witness for C6 at the initial state. -/
theorem C6_restore_no_file_witness :
    handleRestore initState (Except.ok "Zm9vYmFy") = (initState, 0) ∧
    step (initState, initEnv) (.restore (Except.ok "Zm9vYmFy")) = (initState, initEnv) ∧
    status (step (initState, initEnv) (.restore (Except.ok "Zm9vYmFy"))).1 = status initState :=
  C6_restore_no_file initState initEnv (Except.ok "Zm9vYmFy") rfl

/-- C4: selecting a valid image file stores the file, derives and stores a
fresh preview handle for it, clears the restored image and the error
message, and puts the session in Ready; the new handle was not live
before, and it is the only live handle afterwards. -/
theorem C4_valid_select (s : AppState) (e : Env) (f : File)
    (hf : strStartsWith f.type "image/" = true) (hinv : EnvInv s e) :
    (handleFileChange (s, e) (some f)).1.originalImage = some f ∧
    (handleFileChange (s, e) (some f)).1.originalImageUrl =
      some { id := e.nextUrl, file := f } ∧
    (handleFileChange (s, e) (some f)).1.restoredImageUrl = none ∧
    (handleFileChange (s, e) (some f)).1.error = none ∧
    status (handleFileChange (s, e) (some f)).1 = Status.Ready ∧
    (∀ u ∈ e.live, u.id ≠ e.nextUrl) ∧
    (handleFileChange (s, e) (some f)).2.live = [{ id := e.nextUrl, file := f }] := by
  rw [handleFileChange_valid s e f hf]
  refine ⟨rfl, rfl, rfl, rfl, by simp [status, initState], ?_, ?_⟩
  · intro u hu
    obtain ⟨h1, h2⟩ := hinv
    rw [h1] at hu
    cases ho : s.originalImageUrl with
    | none => rw [ho] at hu; simp [Option.toList] at hu
    | some v =>
      rw [ho] at hu
      simp only [Option.toList, List.mem_singleton] at hu
      subst hu
      rw [ho] at h2
      simp only [Option.all] at h2
      have := of_decide_eq_true h2
      omega
  · rw [resetState_live_nil s e hinv]

/-- Witness for C4 at the initial state with the sample image file. -/
theorem C4_valid_select_witness :
    (handleFileChange (initState, initEnv) (some jpegFile)).1.originalImage = some jpegFile ∧
    (handleFileChange (initState, initEnv) (some jpegFile)).1.originalImageUrl =
      some { id := initEnv.nextUrl, file := jpegFile } ∧
    (handleFileChange (initState, initEnv) (some jpegFile)).1.restoredImageUrl = none ∧
    (handleFileChange (initState, initEnv) (some jpegFile)).1.error = none ∧
    status (handleFileChange (initState, initEnv) (some jpegFile)).1 = Status.Ready ∧
    (∀ u ∈ initEnv.live, u.id ≠ initEnv.nextUrl) ∧
    (handleFileChange (initState, initEnv) (some jpegFile)).2.live =
      [{ id := initEnv.nextUrl, file := jpegFile }] :=
  C4_valid_select initState initEnv jpegFile (by decide) (by decide)

/-- C3 counterexample: from the initial (Idle) session, selecting a
non-image file sets the error message, and the derived status changes
from Idle to Failed, refuting the claim that status is left unchanged. -/
theorem C3_counterexample :
    (handleFileChange (initState, initEnv) (some textFile)).1.error =
      some validationErrorMsg ∧
    status initState = Status.Idle ∧
    status (handleFileChange (initState, initEnv) (some textFile)).1 = Status.Failed := by
  decide

/-- C3 amended: selecting a non-image file sets errorMessage to the
validation message, leaves every other session field and the environment
unchanged (in particular no preview handle is created), and leaves the
status unchanged when it was Restoring, Succeeded or Failed; a Ready or
Idle session, however, moves to Failed, because the validation message is
stored in the same error field whose presence renders the failure
banner. -/
theorem C3_amended_invalid_select (s : AppState) (e : Env) (f : File)
    (hf : strStartsWith f.type "image/" = false) :
    (handleFileChange (s, e) (some f)).1 = { s with error := some validationErrorMsg } ∧
    (handleFileChange (s, e) (some f)).2 = e ∧
    ((status s = Status.Restoring ∨ status s = Status.Succeeded ∨
        status s = Status.Failed) →
      status (handleFileChange (s, e) (some f)).1 = status s) ∧
    ((status s = Status.Ready ∨ status s = Status.Idle) →
      status (handleFileChange (s, e) (some f)).1 = Status.Failed) := by
  have h1 : handleFileChange (s, e) (some f) =
      ({ s with error := some validationErrorMsg }, e) := by
    simp [handleFileChange, hf]
  rcases s with ⟨oi, ou, ru, il, er⟩
  refine ⟨by rw [h1], by rw [h1], ?_, ?_⟩ <;> rw [h1] <;>
    cases il <;> cases ru <;> cases er <;> cases oi <;> simp [status]

/-- Witness for C3 amended: a non-image file selected in a Succeeded
session leaves the status Succeeded. -/
theorem C3_amended_invalid_select_witness :
    (handleFileChange (succeededState, readyPair.2) (some textFile)).1 =
      { succeededState with error := some validationErrorMsg } ∧
    (handleFileChange (succeededState, readyPair.2) (some textFile)).2 = readyPair.2 ∧
    ((status succeededState = Status.Restoring ∨
        status succeededState = Status.Succeeded ∨
        status succeededState = Status.Failed) →
      status (handleFileChange (succeededState, readyPair.2) (some textFile)).1 =
        status succeededState) ∧
    ((status succeededState = Status.Ready ∨ status succeededState = Status.Idle) →
      status (handleFileChange (succeededState, readyPair.2) (some textFile)).1 =
        Status.Failed) :=
  C3_amended_invalid_select succeededState readyPair.2 textFile (by decide)

/-- C2 counterexample: in the session whose original file is photo.jpg and
whose restoration succeeded, the download anchor of src/App.tsx line 156
uses the name restored-photo.png, while the claimed default would be
restored-photo.jpg. -/
theorem C2_counterexample :
    downloadAttr succeededState =
      some ("data:image/jpeg;base64,Zm9vYmFy", "restored-photo.png") ∧
    specDownloadName succeededState = some "restored-photo.jpg" ∧
    ("restored-photo.png" : String) ≠ "restored-photo.jpg" := by
  decide

/-- C2 amended: whenever a restored image exists, the save-to-disk anchor
uses the fixed filename restored-photo.png, regardless of the extension
of the original file. -/
theorem C2_amended_fixed_download_name (s : AppState) (href dl : String)
    (h : downloadAttr s = some (href, dl)) : dl = "restored-photo.png" := by
  unfold downloadAttr at h
  cases hr : s.restoredImageUrl with
  | none => rw [hr] at h; exact Option.noConfusion h
  | some u =>
    rw [hr] at h
    simp only [Option.map_some', Option.some_inj, Prod.mk.injEq] at h
    exact h.2.symm

/-- Witness for C2 amended at the concrete Succeeded session. -/
theorem C2_amended_fixed_download_name_witness :
    ("restored-photo.png" : String) = "restored-photo.png" :=
  C2_amended_fixed_download_name succeededState "data:image/jpeg;base64,Zm9vYmFy"
    "restored-photo.png" (by decide)

/-- C8: with a file selected, a failing restoration call drives the
status from Ready through Restoring to Failed, sets the fixed failure
message, and leaves the restored image unset. -/
theorem C8_restore_failure (s : AppState) (img : File) (reason : String)
    (hr : status s = Status.Ready) (himg : s.originalImage = some img) :
    status s = Status.Ready ∧
    status (restoreIntermediate s) = Status.Restoring ∧
    status (handleRestore s (Except.error reason)).1 = Status.Failed ∧
    (handleRestore s (Except.error reason)).1.error = some restoreFailMsg ∧
    (handleRestore s (Except.error reason)).1.restoredImageUrl = none ∧
    (handleRestore s (Except.error reason)).2 = 1 := by
  have hfin : handleRestore s (Except.error reason) =
      ({ restoreIntermediate s with error := some restoreFailMsg, isLoading := false }, 1) := by
    unfold handleRestore
    rw [himg]
  refine ⟨hr, by simp [status, restoreIntermediate], ?_, ?_, ?_, ?_⟩ <;>
    rw [hfin] <;> simp [status, restoreIntermediate]

/-- Witness for C8 at the concrete Ready session. -/
theorem C8_restore_failure_witness :
    status readyPair.1 = Status.Ready ∧
    status (restoreIntermediate readyPair.1) = Status.Restoring ∧
    status (handleRestore readyPair.1 (Except.error "network down")).1 = Status.Failed ∧
    (handleRestore readyPair.1 (Except.error "network down")).1.error =
      some restoreFailMsg ∧
    (handleRestore readyPair.1 (Except.error "network down")).1.restoredImageUrl = none ∧
    (handleRestore readyPair.1 (Except.error "network down")).2 = 1 :=
  C8_restore_failure readyPair.1 jpegFile "network down" (by decide) (by decide)

/-- C10: a failing restoration leaves the selected file, its preview
handle and the environment untouched (with a well-formed environment the
preview handle is still live), and a subsequent restore attempt performs a
network exchange again. -/
theorem C10_restore_failure_frame (s : AppState) (e : Env) (img : File)
    (reason : String) (himg : s.originalImage = some img) :
    (handleRestore s (Except.error reason)).1.originalImage = s.originalImage ∧
    (handleRestore s (Except.error reason)).1.originalImageUrl = s.originalImageUrl ∧
    (step (s, e) (.restore (Except.error reason))).2 = e ∧
    (EnvInv s e → ∀ u, s.originalImageUrl = some u →
      u ∈ (step (s, e) (.restore (Except.error reason))).2.live) ∧
    (∀ r2, (handleRestore (handleRestore s (Except.error reason)).1 r2).2 = 1) := by
  have hfin : handleRestore s (Except.error reason) =
      ({ restoreIntermediate s with error := some restoreFailMsg, isLoading := false }, 1) := by
    unfold handleRestore
    rw [himg]
  refine ⟨by rw [hfin]; simp [restoreIntermediate], by rw [hfin]; simp [restoreIntermediate],
    rfl, ?_, ?_⟩
  · intro hinv u hu
    simp only [step]
    rw [hinv.1, hu]
    simp [Option.toList]
  · intro r2
    rw [hfin]
    unfold handleRestore
    simp only [restoreIntermediate]
    rw [himg]
    cases r2 <;> rfl

/-- Witness for C10 at the concrete Ready session. -/
theorem C10_restore_failure_frame_witness :
    (handleRestore readyPair.1 (Except.error "boom")).1.originalImage =
      readyPair.1.originalImage ∧
    (handleRestore readyPair.1 (Except.error "boom")).1.originalImageUrl =
      readyPair.1.originalImageUrl ∧
    (step (readyPair.1, readyPair.2) (.restore (Except.error "boom"))).2 = readyPair.2 ∧
    (EnvInv readyPair.1 readyPair.2 → ∀ u, readyPair.1.originalImageUrl = some u →
      u ∈ (step (readyPair.1, readyPair.2) (.restore (Except.error "boom"))).2.live) ∧
    (∀ r2, (handleRestore (handleRestore readyPair.1 (Except.error "boom")).1 r2).2 = 1) :=
  C10_restore_failure_frame readyPair.1 readyPair.2 jpegFile "boom" (by decide)

/-- C9: from any state, resetState returns the session to the initial
Idle state; when a preview handle is held it removes exactly that one
handle from the live set (in a well-formed environment the handle was the
single live one and none remains), when none is held the environment is
untouched; resetState is idempotent, and on an already-idle session (the
initial state, or any Idle state holding no handle) it is a complete
no-op. -/
theorem C9_reset (s : AppState) (e : Env) :
    (resetState (s, e)).1 = initState ∧
    status (resetState (s, e)).1 = Status.Idle ∧
    (∀ u, s.originalImageUrl = some u →
      (resetState (s, e)).2.live = e.live.erase u) ∧
    (s.originalImageUrl = none → (resetState (s, e)).2 = e) ∧
    resetState (resetState (s, e)) = resetState (s, e) ∧
    (EnvInv s e → ∀ u, s.originalImageUrl = some u →
      e.live = [u] ∧ (resetState (s, e)).2.live = []) ∧
    (EnvInv s e → (resetState (s, e)).2.live = []) ∧
    (s = initState → resetState (s, e) = (s, e)) ∧
    (status s = Status.Idle → s.originalImageUrl = none → resetState (s, e) = (s, e)) := by
  refine ⟨rfl, by simp [status, resetState, initState], ?_, ?_, ?_, ?_,
    resetState_live_nil s e, ?_, ?_⟩
  · intro u hu
    simp [resetState, revokeObjectURL, hu]
  · intro hu
    simp [resetState, hu]
  · cases hu : s.originalImageUrl <;>
      simp [resetState, revokeObjectURL, hu, initState]
  · intro hinv u hu
    have h1 := hinv.1
    rw [hu] at h1
    simp only [Option.toList] at h1
    exact ⟨h1, resetState_live_nil s e hinv⟩
  · intro hs
    subst hs
    simp [resetState, initState]
  · intro hidle hu
    rcases s with ⟨oi, ou, ru, il, er⟩
    simp only at hu
    subst hu
    cases il <;> cases ru <;> cases er <;> cases oi <;>
      simp_all [status, resetState, initState]

/-- Witness for C9 at the concrete Ready session. -/
theorem C9_reset_witness :
    (resetState (readyPair.1, readyPair.2)).1 = initState ∧
    status (resetState (readyPair.1, readyPair.2)).1 = Status.Idle ∧
    (∀ u, readyPair.1.originalImageUrl = some u →
      (resetState (readyPair.1, readyPair.2)).2.live = readyPair.2.live.erase u) ∧
    (readyPair.1.originalImageUrl = none →
      (resetState (readyPair.1, readyPair.2)).2 = readyPair.2) ∧
    resetState (resetState (readyPair.1, readyPair.2)) =
      resetState (readyPair.1, readyPair.2) ∧
    (EnvInv readyPair.1 readyPair.2 → ∀ u, readyPair.1.originalImageUrl = some u →
      readyPair.2.live = [u] ∧ (resetState (readyPair.1, readyPair.2)).2.live = []) ∧
    (EnvInv readyPair.1 readyPair.2 → (resetState (readyPair.1, readyPair.2)).2.live = []) ∧
    (readyPair.1 = initState → resetState (readyPair.1, readyPair.2) =
      (readyPair.1, readyPair.2)) ∧
    (status readyPair.1 = Status.Idle → readyPair.1.originalImageUrl = none →
      resetState (readyPair.1, readyPair.2) = (readyPair.1, readyPair.2)) :=
  C9_reset readyPair.1 readyPair.2

/-- Rebuilding a string from its character list is the identity. -/
theorem string_mk_data (s : String) : String.mk s.data = s := by
  cases s
  rfl

/-- takeWhile over a list wholly satisfying the predicate followed by an
element refuting it returns exactly the first part. -/
theorem takeWhile_append_stop (p : Char → Bool) (y : Char) (xs ys : List Char)
    (hx : xs.all p = true) (hy : p y = false) :
    (xs ++ y :: ys).takeWhile p = xs := by
  induction xs with
  | nil => simp [List.takeWhile_cons, hy]
  | cons a t ih =>
    simp only [List.all_cons, Bool.and_eq_true] at hx
    simp [List.takeWhile_cons, hx.1, ih hx.2]

/-- Character-list decomposition of the data URL built on src/App.tsx
line 63. -/
theorem restored_data (t b : String) :
    ("data:" ++ t ++ ";base64," ++ b).data
      = "data:".data ++ (t.data ++ (';' :: ("base64,".data ++ b.data))) := by
  have h : (";base64," : String).data = ';' :: ("base64," : String).data := rfl
  simp [String.data_append, h]

/-- Every character list is a Boolean-level initial segment of itself
followed by anything. -/
theorem isPrefixOf_append_self (l r : List Char) : l.isPrefixOf (l ++ r) = true := by
  induction l with
  | nil => simp [List.isPrefixOf]
  | cons a t ih => simp [List.isPrefixOf, ih]

/-- The data URL built by handleRestore declares exactly the MIME type of
the original file, provided that type contains no semicolon. -/
theorem dataUrlMime_restored (t b : String)
    (ht : t.data.all (fun c => c != ';') = true) :
    dataUrlMime ("data:" ++ t ++ ";base64," ++ b) = some t := by
  have hlen : ("data:" : String).data.length = 5 := rfl
  have hpre : strStartsWith ("data:" ++ t ++ ";base64," ++ b) "data:" = true := by
    unfold strStartsWith
    rw [restored_data]
    exact isPrefixOf_append_self _ _
  unfold dataUrlMime
  rw [hpre]
  simp only [if_true]
  rw [restored_data, List.drop_left' hlen,
    takeWhile_append_stop _ ';' _ _ ht rfl, string_mk_data]

/-- C7: with a file selected, a successful restoration call drives the
status from Ready through Restoring to Succeeded in exactly one network
exchange, and the stored restored-image data URL encodes the MIME type of
the original file (extracted back exactly when the type contains no
semicolon, as every image/* type does). -/
theorem C7_restore_success (s : AppState) (img : File) (b64 : String)
    (hr : status s = Status.Ready) (himg : s.originalImage = some img) :
    status s = Status.Ready ∧
    status (restoreIntermediate s) = Status.Restoring ∧
    status (handleRestore s (Except.ok b64)).1 = Status.Succeeded ∧
    (handleRestore s (Except.ok b64)).2 = 1 ∧
    (handleRestore s (Except.ok b64)).1.restoredImageUrl =
      some ("data:" ++ img.type ++ ";base64," ++ b64) ∧
    (img.type.data.all (fun c => c != ';') = true →
      Option.bind (handleRestore s (Except.ok b64)).1.restoredImageUrl dataUrlMime =
        some img.type) := by
  have hfin : handleRestore s (Except.ok b64) =
      ({ restoreIntermediate s with
          restoredImageUrl := some ("data:" ++ img.type ++ ";base64," ++ b64)
          isLoading := false }, 1) := by
    unfold handleRestore
    rw [himg]
  refine ⟨hr, by simp [status, restoreIntermediate], ?_, ?_, ?_, ?_⟩
  · rw [hfin]
    simp [status]
  · rw [hfin]
  · rw [hfin]
  · intro ht
    rw [hfin]
    simp only [Option.bind]
    exact dataUrlMime_restored img.type b64 ht

/-- Witness for C7 at the concrete Ready session with payload Zm9vYmFy. -/
theorem C7_restore_success_witness :
    status readyPair.1 = Status.Ready ∧
    status (restoreIntermediate readyPair.1) = Status.Restoring ∧
    status (handleRestore readyPair.1 (Except.ok "Zm9vYmFy")).1 = Status.Succeeded ∧
    (handleRestore readyPair.1 (Except.ok "Zm9vYmFy")).2 = 1 ∧
    (handleRestore readyPair.1 (Except.ok "Zm9vYmFy")).1.restoredImageUrl =
      some ("data:" ++ jpegFile.type ++ ";base64," ++ "Zm9vYmFy") ∧
    (jpegFile.type.data.all (fun c => c != ';') = true →
      Option.bind (handleRestore readyPair.1 (Except.ok "Zm9vYmFy")).1.restoredImageUrl
        dataUrlMime = some jpegFile.type) :=
  C7_restore_success readyPair.1 jpegFile "Zm9vYmFy" (by decide) (by decide)

/-- Selecting a valid file keeps the environment well formed. -/
theorem envInv_select_valid (s : AppState) (e : Env) (f : File)
    (hinv : EnvInv s e) (hf : strStartsWith f.type "image/" = true) :
    EnvInv (handleFileChange (s, e) (some f)).1 (handleFileChange (s, e) (some f)).2 := by
  rw [handleFileChange_valid s e f hf]
  constructor
  · simp [Option.toList, resetState_live_nil s e hinv]
  · simp [Option.all, Nat.lt_succ_self]

/-- After selecting a valid file in a well-formed session, the freshly
created handle is the only live one. -/
theorem select_valid_live (s : AppState) (e : Env) (f : File)
    (hinv : EnvInv s e) (hf : strStartsWith f.type "image/" = true) :
    (handleFileChange (s, e) (some f)).2.live = [{ id := e.nextUrl, file := f }] := by
  rw [handleFileChange_valid s e f hf]
  simp [resetState_live_nil s e hinv]

/-- C1 counterexample: succeededState (reached from the initial session by
selecting a valid image and restoring successfully) satisfies the
invariant, yet selecting a non-image file from it yields a state whose
errorMessage is set while the status is Succeeded, not Failed: the
selectFile operation does not preserve the invariant from this reachable
state. -/
theorem C1_counterexample :
    ErrStatusInv succeededState ∧
    status succeededState = Status.Succeeded ∧
    (handleFileChange (succeededState, readyPair.2) (some textFile)).1.error.isSome = true ∧
    status (handleFileChange (succeededState, readyPair.2) (some textFile)).1 =
      Status.Succeeded ∧
    ¬ ErrStatusInv (handleFileChange (succeededState, readyPair.2) (some textFile)).1 := by
  decide

/-- C1 amended: the invariant that errorMessage is non-empty exactly in
status Failed is preserved by reset, by restore (including its in-flight
Restoring state), by selectFile with no file or a valid image file, and by
selectFile with an arbitrary file whenever no restored image is present
and no restoration is in flight; it is not preserved by selectFile with a
non-image file from a state holding a restored image, which sets
errorMessage while the status stays Succeeded. -/
theorem C1_amended_error_invariant (s : AppState) (e : Env)
    (r : Except String String) (f g : File) (hinv : ErrStatusInv s) :
    ErrStatusInv (resetState (s, e)).1 ∧
    ErrStatusInv (restoreIntermediate s) ∧
    ErrStatusInv (handleRestore s r).1 ∧
    ErrStatusInv (handleFileChange (s, e) none).1 ∧
    (strStartsWith f.type "image/" = true →
      ErrStatusInv (handleFileChange (s, e) (some f)).1) ∧
    (s.restoredImageUrl = none → s.isLoading = false →
      ErrStatusInv (handleFileChange (s, e) (some g)).1) := by
  refine ⟨show ErrStatusInv initState by decide, ?_, ?_, hinv, ?_, ?_⟩
  · simp [ErrStatusInv, status, restoreIntermediate]
  · cases himg : s.originalImage with
    | none => unfold handleRestore; rw [himg]; exact hinv
    | some img =>
      unfold handleRestore
      rw [himg]
      cases r <;> simp [ErrStatusInv, status, restoreIntermediate]
  · intro hf
    rw [handleFileChange_valid s e f hf]
    simp [ErrStatusInv, status, initState]
  · intro hru hil
    cases hval : strStartsWith g.type "image/" with
    | true =>
      rw [handleFileChange_valid s e g hval]
      simp [ErrStatusInv, status, initState]
    | false =>
      simp [handleFileChange, hval, ErrStatusInv, status, hru, hil]

/-- Witness for C1 amended at the concrete Ready session. -/
theorem C1_amended_error_invariant_witness :
    ErrStatusInv (resetState (readyPair.1, readyPair.2)).1 ∧
    ErrStatusInv (restoreIntermediate readyPair.1) ∧
    ErrStatusInv (handleRestore readyPair.1 (Except.ok "Zm9vYmFy")).1 ∧
    ErrStatusInv (handleFileChange (readyPair.1, readyPair.2) none).1 ∧
    (strStartsWith jpegFile.type "image/" = true →
      ErrStatusInv (handleFileChange (readyPair.1, readyPair.2) (some jpegFile)).1) ∧
    (readyPair.1.restoredImageUrl = none → readyPair.1.isLoading = false →
      ErrStatusInv (handleFileChange (readyPair.1, readyPair.2) (some textFile)).1) :=
  C1_amended_error_invariant readyPair.1 readyPair.2 (Except.ok "Zm9vYmFy")
    jpegFile textFile (by decide)

/-- C5: in a well-formed session, two consecutive selectFile calls with
valid image files allocate distinct handles, the first handle is released
by the reset phase of the second call before the second handle is
allocated, the first handle is no longer live at the end, and each of the
four observable environments of the sequence holds at most one live
handle. -/
theorem C5_preview_lifecycle (s : AppState) (e : Env) (f1 f2 : File)
    (hinv : EnvInv s e)
    (h1 : strStartsWith f1.type "image/" = true)
    (h2 : strStartsWith f2.type "image/" = true) :
    (handleFileChange (s, e) (some f1)).1.originalImageUrl =
      some { id := e.nextUrl, file := f1 } ∧
    (handleFileChange (s, e) (some f1)).2.live = [{ id := e.nextUrl, file := f1 }] ∧
    (resetState (handleFileChange (s, e) (some f1))).2.live = [] ∧
    (handleFileChange (handleFileChange (s, e) (some f1)) (some f2)).2.live =
      [{ id := e.nextUrl + 1, file := f2 }] ∧
    ({ id := e.nextUrl, file := f1 } : ObjectURL) ∉
      (handleFileChange (handleFileChange (s, e) (some f1)) (some f2)).2.live ∧
    e.live.length ≤ 1 ∧
    (handleFileChange (s, e) (some f1)).2.live.length ≤ 1 ∧
    (resetState (handleFileChange (s, e) (some f1))).2.live.length ≤ 1 ∧
    (handleFileChange (handleFileChange (s, e) (some f1)) (some f2)).2.live.length ≤ 1 := by
  have hinv1 := envInv_select_valid s e f1 hinv h1
  have hn1 : (handleFileChange (s, e) (some f1)).2.nextUrl = e.nextUrl + 1 := by
    rw [handleFileChange_valid s e f1 h1]
  have hl1 := select_valid_live s e f1 hinv h1
  have hmid : (resetState (handleFileChange (s, e) (some f1))).2.live = [] :=
    resetState_live_nil _ _ hinv1
  have hl2 : (handleFileChange (handleFileChange (s, e) (some f1)) (some f2)).2.live =
      [{ id := e.nextUrl + 1, file := f2 }] := by
    have hstep := select_valid_live (handleFileChange (s, e) (some f1)).1
      (handleFileChange (s, e) (some f1)).2 f2 hinv1 h2
    rw [hn1] at hstep
    exact hstep
  refine ⟨?_, hl1, hmid, hl2, ?_, ?_, ?_, ?_, ?_⟩
  · rw [handleFileChange_valid s e f1 h1]
  · rw [hl2]
    simp
  · rw [hinv.1]
    cases s.originalImageUrl <;> simp [Option.toList]
  · rw [hl1]; simp
  · rw [hmid]; simp
  · rw [hl2]; simp

/-- Witness for C5 from the initial session with two sample image files. -/
theorem C5_preview_lifecycle_witness :
    (handleFileChange (initState, initEnv) (some jpegFile)).1.originalImageUrl =
      some { id := initEnv.nextUrl, file := jpegFile } ∧
    (handleFileChange (initState, initEnv) (some jpegFile)).2.live =
      [{ id := initEnv.nextUrl, file := jpegFile }] ∧
    (resetState (handleFileChange (initState, initEnv) (some jpegFile))).2.live = [] ∧
    (handleFileChange (handleFileChange (initState, initEnv) (some jpegFile))
        (some pngFile)).2.live = [{ id := initEnv.nextUrl + 1, file := pngFile }] ∧
    ({ id := initEnv.nextUrl, file := jpegFile } : ObjectURL) ∉
      (handleFileChange (handleFileChange (initState, initEnv) (some jpegFile))
        (some pngFile)).2.live ∧
    initEnv.live.length ≤ 1 ∧
    (handleFileChange (initState, initEnv) (some jpegFile)).2.live.length ≤ 1 ∧
    (resetState (handleFileChange (initState, initEnv) (some jpegFile))).2.live.length ≤ 1 ∧
    (handleFileChange (handleFileChange (initState, initEnv) (some jpegFile))
        (some pngFile)).2.live.length ≤ 1 :=
  C5_preview_lifecycle initState initEnv jpegFile pngFile (by decide) (by decide) (by decide)

end RestaurPhoto
